import Mathlib

/-!
Verification of the pipcook core: the costa `PluginRunnable` state machine
(src/packages/costa/src/runnable.ts) and the daemon tracer
(`LogPassthrough`, `Tracer`, `TraceManager`).

Text is modelled as `List Char` (the decoded text seen by the stream code;
the byte-level `StringDecoder` is abstracted: a chunk stands for the string
returned by `decoder.write(bytes)`, and the decoder's pending partial
multi-byte state at end of stream is an explicit argument `pend` standing
for `decoder.end()`).
-/

namespace LogPassthrough

/-- Line terminators recognised by `_transform`: the regex `/\n|\r/`. -/
def isTerm (c : Char) : Bool := c = '\n' || c = '\r'

/-- JavaScript `s.split(/\n|\r/)` on decoded text: split at every
terminator character; always returns at least one (possibly empty)
segment, like the JS `String.prototype.split`. -/
def splitTerm : List Char → List (List Char)
  | [] => [[]]
  | c :: cs =>
    if isTerm c then [] :: splitTerm cs
    else
      match splitTerm cs with
      | [] => [[c]]
      | s :: rest => (c :: s) :: rest

/-- JavaScript `list.pop()` followed by using the remaining list: returns
(remaining elements, popped last element). On the empty list JS would
return `undefined`; `splitTerm` never yields `[]`, so the default is
unreachable. -/
def popLast : List (List Char) → List (List Char) × List Char
  | [] => ([], [])
  | [x] => ([], x)
  | x :: y :: rest =>
    let r := popLast (y :: rest)
    (x :: r.1, r.2)

/-- `LogPassthrough._transform`: `last` is the carry buffer field
(`none` when still `undefined`), `chunk` the decoded text of the incoming
chunk. Returns (lines pushed in order, new carry buffer). Source:
if `last` is undefined set it to the empty string, append the decoded
chunk, split on `/\n|\r/`, pop the final segment back into `last`, and
push every remaining segment. -/
def transform (last : Option (List Char)) (chunk : List Char) :
    List (List Char) × List Char :=
  let l := match last with
    | none => []
    | some s => s
  let list := splitTerm (l ++ chunk)
  popLast list

/-- `LogPassthrough._flush`: JS truthiness of `this.last` decides whether
the decoder tail is appended to the carry or replaces it
(`this.last = this.last ? this.last + this.decoder.end() : this.decoder.end()`),
then the result is pushed iff it is truthy (non-empty). Returns the list
of lines pushed by the flush. -/
def flushLines (last : Option (List Char)) (pend : List Char) :
    List (List Char) :=
  let l := match last with
    | none => pend
    | some s => if s = [] then pend else s ++ pend
  if l = [] then [] else [l]

/-- Feed a sequence of chunks through `_transform`, threading the carry
buffer, collecting every pushed line in order. -/
def feed (last : Option (List Char)) :
    List (List Char) → List (List Char) × Option (List Char)
  | [] => ([], last)
  | c :: cs =>
    let step := transform last c
    let rest := feed (some step.2) cs
    (step.1 ++ rest.1, rest.2)

theorem splitTerm_ne_nil (cs : List Char) : splitTerm cs ≠ [] := by
  induction cs with
  | nil => simp [splitTerm]
  | cons c cs ih =>
    simp only [splitTerm]
    by_cases h : isTerm c
    · simp [h]
    · simp only [h]
      match hs : splitTerm cs with
      | [] => simp
      | s :: rest => simp

theorem popLast_append (ls : List (List Char)) (h : ls ≠ []) :
    (popLast ls).1 ++ [(popLast ls).2] = ls := by
  induction ls with
  | nil => exact absurd rfl h
  | cons x xs ih =>
    match xs with
    | [] => simp [popLast]
    | y :: rest =>
      simp only [popLast, List.cons_append, List.cons.injEq, true_and]
      exact ih (by simp)

/-- Concatenating all segments of a split recovers exactly the
non-terminator characters, in order: the split loses no text and
reorders nothing. -/
theorem splitTerm_join (cs : List Char) :
    (splitTerm cs).flatten = cs.filter (fun c => !isTerm c) := by
  induction cs with
  | nil => simp [splitTerm]
  | cons c cs ih =>
    simp only [splitTerm]
    by_cases h : isTerm c
    · simp [h, List.filter, ih]
    · simp only [h]
      match hs : splitTerm cs with
      | [] => exact absurd hs (splitTerm_ne_nil cs)
      | s :: rest =>
        simp only [List.flatten, List.filter, h]
        rw [hs] at ih
        simpa using ih

end LogPassthrough

namespace Costa

/-- The lifecycle states of `PluginRunnable.state`. -/
inductive RState
  | init
  | idle
  | busy
  | error
deriving DecidableEq, Repr

/-- Errors surfaced by the modelled methods: `TypeError` thrown by the
code itself, or an error propagated out of an awaited channel call. -/
inductive JsError
  | typeError (msg : String)
  | chanError (msg : String)
deriving DecidableEq, Repr

/-- The forked child process handle, reduced to the one field the
modelled methods read: `connected`. `PluginRunnable.handle` is `null`
until `bootstrap` forks, modelled as `Option Child`. -/
structure Child where
  connected : Bool
deriving DecidableEq, Repr

/-- `interface PluginPackage` reduced to the field `start` reads. -/
structure PluginPackage where
  name : String
deriving DecidableEq, Repr

/-- `interface RunnableResponse`. -/
structure RunnableResponse where
  id : String
deriving DecidableEq, Repr

/-- The mutable fields of `PluginRunnable` the claims are about, plus the
runtime options `start` reads (`this.rt.options.installDir` and
`componentDir`) and the PLNR timeout. -/
structure RunnableSt where
  id : String
  state : RState
  canceled : Bool
  handle : Option Child
  installDir : String
  componentDir : String
  pluginLoadNotRespondingTimeout : Nat
deriving DecidableEq, Repr

/-- Observable side effects of a method call, in program order. -/
inductive Effect
  | ensureDir (path : String)
  | ensureSymlink (src : String) (dst : String)
  | chanLoad (timeoutMs : Nat)
  | chanStart
  | chanDestroy (waitMs : Nat)
  | kill (signal : String)
deriving DecidableEq, Repr

deriving instance DecidableEq for Except

/-- Outcomes of the awaited `ipcProxy.load` and `ipcProxy.start` calls
(each either resolves or rejects); the filesystem calls in `start` are
modelled as succeeding, the claims being about channel failures. -/
structure StartOracle where
  loadResult : Except JsError Unit
  startResult : Except JsError (Option RunnableResponse)
deriving DecidableEq, Repr

/-- `path.parse(name).dir`: the part of `name` before the last slash,
empty when `name` has no slash (e.g. `"@scope/pkg"` gives `"@scope"`). -/
def parseDir (name : String) : String :=
  let parts := name.splitOn "/"
  match parts with
  | [] => ""
  | [_] => ""
  | _ => String.intercalate "/" parts.dropLast

/-- wait 1000ms for the child process to finish (`waitForDestroyed`). -/
def waitForDestroyed : Nat := 1000

/-- `PluginRunnable.start(pkg, ...args)`. Returns (the promise outcome,
the runnable afterwards, the effects issued in order). Source: throw if
`state !== 'idle'`; set `state = 'busy'`; ensure the component dirs and
the package symlink; await `ipcProxy.load`; await `ipcProxy.start`; only
then set `state = 'idle'` and return the result (there is no catch or
finally, so a rejected `load` or `start` leaves `state` at `'busy'`). -/
def start (r : RunnableSt) (pkg : PluginPackage) (o : StartOracle) :
    Except JsError (Option RunnableResponse) × RunnableSt × List Effect :=
  if r.state ≠ RState.idle then
    (Except.error (JsError.typeError
      ("the runnable " ++ r.id ++ " is busy or not ready now")), r, [])
  else
    let r1 := { r with state := RState.busy }
    let compPath := r.componentDir ++ "/" ++ r.id
    let fsEffs :=
      [Effect.ensureDir compPath,
       Effect.ensureDir (compPath ++ "/node_modules")]
      ++ (if parseDir pkg.name ≠ "" then
            [Effect.ensureDir (compPath ++ "/node_modules/" ++ parseDir pkg.name)]
          else [])
      ++ [Effect.ensureSymlink
            (r.installDir ++ "/node_modules/" ++ pkg.name)
            (compPath ++ "/node_modules/" ++ pkg.name)]
    match o.loadResult with
    | Except.error e =>
      (Except.error e, r1,
       fsEffs ++ [Effect.chanLoad r.pluginLoadNotRespondingTimeout])
    | Except.ok _ =>
      match o.startResult with
      | Except.error e =>
        (Except.error e, r1,
         fsEffs ++ [Effect.chanLoad r.pluginLoadNotRespondingTimeout,
                    Effect.chanStart])
      | Except.ok v =>
        (Except.ok v, { r1 with state := RState.idle },
         fsEffs ++ [Effect.chanLoad r.pluginLoadNotRespondingTimeout,
                    Effect.chanStart])

/-- `PluginRunnable.destroy()`, with `o` the outcome of the awaited
`ipcProxy.destroy(waitForDestroyed)` call (rejection covers both a
worker-reported failure and the bounded-wait timeout). Source: reading
`this.handle.connected` on the `null` handle throws a `TypeError`;
return early if not connected; set `canceled`; on a rejected channel
destroy, set `state = 'error'` and `kill('SIGKILL')`, swallowing the
exception. -/
def destroy (r : RunnableSt) (o : Except JsError Unit) :
    Except JsError Unit × RunnableSt × List Effect :=
  match r.handle with
  | none =>
    (Except.error (JsError.typeError
      "Cannot read property connected of null"), r, [])
  | some h =>
    if !h.connected then
      (Except.ok (), r, [])
    else
      let r1 := { r with canceled := true }
      match o with
      | Except.ok _ =>
        (Except.ok (), r1, [Effect.chanDestroy waitForDestroyed])
      | Except.error _ =>
        (Except.ok (), { r1 with state := RState.error },
         [Effect.chanDestroy waitForDestroyed, Effect.kill "SIGKILL"])

end Costa

namespace Tracer

/-- `type LogLevel = 'info' | 'warn' | 'error'`. -/
inductive LogLevel
  | info
  | warn
  | error
deriving DecidableEq, Repr

/-- `class LogEvent extends TraceEvent` with `type: 'log'` and
`data: \x7b level, data \x7d`; the constant tag is left implicit. -/
structure LogEvent where
  level : LogLevel
  data : List Char
deriving DecidableEq, Repr

/-- The two log streams a `Tracer` owns. -/
inductive StreamSrc
  | stdout
  | stderr
deriving DecidableEq, Repr

/-- An occurrence on a `LogPassthrough` stream the `listen` wiring reacts
to: a `data` event carrying one reassembled line, or an `error` event
carrying an error whose `message` is recorded. -/
inductive StreamOccur
  | data (line : List Char)
  | errored (message : List Char)
deriving DecidableEq, Repr

/-- The inner `pipeLog(level, logger)` closure of `Tracer.listen`: a
`data` event becomes `new LogEvent(level, data)`, an `error` event
becomes `new LogEvent('error', err.message)`. -/
def pipeLogEvent (level : LogLevel) : StreamOccur → LogEvent
  | StreamOccur.data l => { level := level, data := l }
  | StreamOccur.errored m => { level := LogLevel.error, data := m }

/-- `Tracer.listen` wiring: `pipeLog('info', this.stdout)` and
`pipeLog('warn', this.stderr)`. Maps an occurrence on a stream to the
`LogEvent` delivered to the registered callback. -/
def listenEvent : StreamSrc → StreamOccur → LogEvent
  | StreamSrc.stdout, occ => pipeLogEvent LogLevel.info occ
  | StreamSrc.stderr, occ => pipeLogEvent LogLevel.warn occ

/-- An error value passed to `finish`; only its `message` is read. -/
structure NodeError where
  message : List Char
deriving DecidableEq, Repr

/-- The fields of a `LogPassthrough` that `finish` reads: the carry
buffer `last` and pending decoder text (as in the `LogPassthrough`
namespace), the count `this.listeners('error').length`, and whether a
`fileStream` was configured. -/
structure LogPassthroughSt where
  last : Option (List Char)
  pend : List Char
  errListeners : Nat
  hasFileStream : Bool
deriving DecidableEq, Repr

/-- Outcome of `LogPassthrough.finish(err)`: whether the returned promise
resolved, the lines pushed by the `_flush` triggered by `this.end()`,
the error the stream was destroyed with (delivered to error listeners),
and whether the unhandled-error console message was printed. -/
structure FinishOutcome where
  resolved : Bool
  flushed : List (List Char)
  destroyErr : Option NodeError
  unhandledLogged : Bool
deriving DecidableEq, Repr

/-- `LogPassthrough.finish(err)`. Source: `this.end()` (running `_flush`
on the carry buffer), then `destoryAndResolve` — directly when there is
no `fileStream`, or from the file stream's `close` event after
`this.fileStream.end()` (a Node `WriteStream` emits `close` after `end`,
so both paths reach it): if `err` is set and at least one `error`
listener is registered, `this.destroy(err)` delivers the error to the
listeners; otherwise, when `err` is set, it is logged as
`unhandled error from log` and the stream is destroyed without it.
Every branch then calls `resolve()`. -/
def finish (st : LogPassthroughSt) (err : Option NodeError) :
    FinishOutcome :=
  let flushed := LogPassthrough.flushLines st.last st.pend
  match err with
  | some e =>
    if st.errListeners > 0 then
      { resolved := true, flushed := flushed,
        destroyErr := some e, unhandledLogged := false }
    else
      { resolved := true, flushed := flushed,
        destroyErr := none, unhandledLogged := true }
  | none =>
    { resolved := true, flushed := flushed,
      destroyErr := none, unhandledLogged := false }

/-- The two `LogPassthrough` streams of a `Tracer`. -/
structure TracerSt where
  stdout : LogPassthroughSt
  stderr : LogPassthroughSt
deriving DecidableEq, Repr

/-- `Tracer.destroy(err)`:
`Promise.all([ this.stderr.finish(err), this.stdout.finish() ])` — the
error goes to the stderr stream's finish only, stdout is finished with
no error. Returns (stderr outcome, stdout outcome). -/
def destroy (t : TracerSt) (err : Option NodeError) :
    FinishOutcome × FinishOutcome :=
  (finish t.stderr err, finish t.stdout none)

end Tracer

namespace TraceManager

/-- Outcome of `TraceManager.destroy(id, err)`: the tracer map
afterwards, the tracer whose `destroy` was invoked together with the
error it was invoked with (`none` when no tracer was found), and whether
the `tracer not found for destroy` debug line was logged. The method
never throws: every path returns an outcome. -/
structure DestroyOutcome where
  tracerMap : List (String × Tracer.TracerSt)
  destroyed : Option (Tracer.TracerSt × Option Tracer.NodeError)
  loggedNotFound : Bool
deriving DecidableEq, Repr

/-- `TraceManager.destroy(id, err)`. Source: `this.tracerMap.get(id)`;
when found, `this.tracerMap.delete(id)` then `tracer.destroy(err)`;
otherwise only a debug log. The map (whose keys are unique) is modelled
as an association list: `get` is the first matching entry, `delete`
removes it. -/
def destroy (tracerMap : List (String × Tracer.TracerSt)) (id : String)
    (err : Option Tracer.NodeError) : DestroyOutcome :=
  match tracerMap.lookup id with
  | some t =>
    { tracerMap := tracerMap.eraseP (fun kv => kv.1 == id),
      destroyed := some (t, err), loggedNotFound := false }
  | none =>
    { tracerMap := tracerMap, destroyed := none, loggedNotFound := true }

end TraceManager

/-! Concrete sample inputs used by the witnesses and counterexamples. -/

/-- A runnable in the given state with the given handle. -/
def sampleRunnable (st : Costa.RState) (h : Option Costa.Child) :
    Costa.RunnableSt :=
  { id := "r1", state := st, canceled := false, handle := h,
    installDir := "/install", componentDir := "/components",
    pluginLoadNotRespondingTimeout := 10000 }

/-- A plugin package descriptor. -/
def samplePkg : Costa.PluginPackage := { name := "plugin-a" }

/-- An oracle whose `load` call rejects. -/
def loadFailOracle : Costa.StartOracle :=
  { loadResult := Except.error (Costa.JsError.chanError "load timeout"),
    startResult := Except.ok none }

/-- A busy runnable with a connected child. -/
def rBusySample : Costa.RunnableSt :=
  sampleRunnable Costa.RState.busy (some { connected := true })

/-- An idle runnable with a connected child. -/
def rIdleSample : Costa.RunnableSt :=
  sampleRunnable Costa.RState.idle (some { connected := true })

/-- A runnable on which `bootstrap` was never called: `handle` is null. -/
def rNoHandleSample : Costa.RunnableSt :=
  sampleRunnable Costa.RState.init none

/-- A runnable whose child was spawned but is no longer connected. -/
def rDisconnSample : Costa.RunnableSt :=
  sampleRunnable Costa.RState.idle (some { connected := false })

/-- A log stream with an empty carry and no listeners or file sink. -/
def lpSample : Tracer.LogPassthroughSt :=
  { last := none, pend := [], errListeners := 0, hasFileStream := false }

/-- A tracer with no error listeners on either stream. -/
def tSample : Tracer.TracerSt := { stdout := lpSample, stderr := lpSample }

/-- A tracer with one error listener on its stderr stream. -/
def tListenSample : Tracer.TracerSt :=
  { stdout := lpSample, stderr := { lpSample with errListeners := 1 } }

/-- An error value. -/
def errSample : Tracer.NodeError := { message := "boom".toList }

/-! Helper lemmas. -/

/-- `_transform` emits exactly the complete segments of the split of the
carry buffer plus the chunk, and carries the final segment. -/
theorem transform_segments (last : Option (List Char)) (chunk : List Char) :
    (LogPassthrough.transform last chunk).1
        ++ [(LogPassthrough.transform last chunk).2]
      = LogPassthrough.splitTerm (last.getD [] ++ chunk) := by
  have h := LogPassthrough.popLast_append
    (LogPassthrough.splitTerm (last.getD [] ++ chunk))
    (LogPassthrough.splitTerm_ne_nil _)
  cases last <;> simpa [LogPassthrough.transform] using h

/-! Claim theorems. -/

/-- Claim C1, counterexample: an idle runnable whose `load` call rejects
propagates the exception, but its state afterwards is `busy`, not
`idle` — the claim that the caller observes `idle` after the failure is
false on the code, which has no catch or finally around the channel
calls. -/
theorem c1_counterexample :
    (Costa.start rIdleSample samplePkg loadFailOracle).1
      = Except.error (Costa.JsError.chanError "load timeout")
    ∧ (Costa.start rIdleSample samplePkg loadFailOracle).2.1.state
      = Costa.RState.busy := by
  constructor <;> rfl

/-- Claim C1 (amended): if during `start` the channel `load` or `start`
call fails, the exception propagates to the caller, but the runnable's
state remains `busy` after the failure; it returns to `idle` only when
both calls succeed. -/
theorem c1_amended_failure_leaves_busy :
    ∀ (r : Costa.RunnableSt) (pkg : Costa.PluginPackage)
      (o : Costa.StartOracle) (e : Costa.JsError),
      r.state = Costa.RState.idle →
      (o.loadResult = Except.error e ∨
        (o.loadResult = Except.ok () ∧ o.startResult = Except.error e)) →
      (Costa.start r pkg o).1 = Except.error e
      ∧ (Costa.start r pkg o).2.1.state = Costa.RState.busy := by
  intro r pkg o e hidle hfail
  rcases hfail with hl | ⟨hl, hs⟩
  · simp [Costa.start, hidle, hl]
  · simp [Costa.start, hidle, hl, hs]

/-- Witness for the amended C1 at a concrete idle runnable with a
rejecting `load` call. -/
theorem c1_amended_witness :
    (Costa.start rIdleSample samplePkg loadFailOracle).1
      = Except.error (Costa.JsError.chanError "load timeout")
    ∧ (Costa.start rIdleSample samplePkg loadFailOracle).2.1.state
      = Costa.RState.busy :=
  c1_amended_failure_leaves_busy rIdleSample samplePkg loadFailOracle
    (Costa.JsError.chanError "load timeout") rfl (Or.inl rfl)

/-- Claim C2: calling `start` on a runnable whose state is not `idle`
(`busy`, `init` or `error`) throws a `TypeError` immediately, issues
no channel call, no filesystem operation, and changes nothing on the
runnable. -/
theorem c2_start_not_idle_is_pure_throw :
    ∀ (r : Costa.RunnableSt) (pkg : Costa.PluginPackage)
      (o : Costa.StartOracle),
      r.state ≠ Costa.RState.idle →
      Costa.start r pkg o
        = (Except.error (Costa.JsError.typeError
            ("the runnable " ++ r.id ++ " is busy or not ready now")),
           r, []) := by
  intro r pkg o h
  simp [Costa.start, h]

/-- Witness for C2 on a busy runnable. -/
theorem c2_witness :
    Costa.start rBusySample samplePkg loadFailOracle
      = (Except.error (Costa.JsError.typeError
          ("the runnable " ++ rBusySample.id ++ " is busy or not ready now")),
         rBusySample, []) :=
  c2_start_not_idle_is_pure_throw rBusySample samplePkg loadFailOracle
    (by decide)

/-- Claim C3: on a runnable with a connected child, if the channel
`destroy` call (issued with the 1000 ms bounded wait) rejects — covering
both failure and timeout — then `destroy` sets the state to `error`,
kills the child with SIGKILL, and returns without throwing. -/
theorem c3_destroy_channel_failure :
    ∀ (r : Costa.RunnableSt) (h : Costa.Child) (e : Costa.JsError),
      r.handle = some h → h.connected = true →
      Costa.destroy r (Except.error e)
        = (Except.ok (),
           { r with canceled := true, state := Costa.RState.error },
           [Costa.Effect.chanDestroy Costa.waitForDestroyed,
            Costa.Effect.kill "SIGKILL"])
      ∧ Costa.waitForDestroyed = 1000 := by
  intro r h e hh hc
  refine ⟨?_, rfl⟩
  simp [Costa.destroy, hh, hc]

/-- Witness for C3 on a connected runnable with a rejecting channel
destroy. -/
theorem c3_witness :
    Costa.destroy rIdleSample
        (Except.error (Costa.JsError.chanError "destroy timeout"))
      = (Except.ok (),
         { rIdleSample with canceled := true, state := Costa.RState.error },
         [Costa.Effect.chanDestroy Costa.waitForDestroyed,
          Costa.Effect.kill "SIGKILL"])
    ∧ Costa.waitForDestroyed = 1000 :=
  c3_destroy_channel_failure rIdleSample { connected := true }
    (Costa.JsError.chanError "destroy timeout") rfl rfl

/-- Claim C4: each chunk's decoded text is appended to the carry buffer,
the buffer is split on every newline or carriage return, every complete
segment is emitted as a line in byte-stream order (flattening the lines
and the carry recovers exactly the non-terminator text, in order), and
the final (possibly empty) segment becomes the new carry; feeding the
chunks "foo\nbar" then "baz\n" emits exactly the lines "foo" then
"barbaz", in that order. -/
theorem c4_transform_split_and_carry :
    ((LogPassthrough.feed none ["foo\nbar".toList, "baz\n".toList]).1
        = ["foo".toList, "barbaz".toList])
    ∧ (∀ (last : Option (List Char)) (chunk : List Char),
        (LogPassthrough.transform last chunk).1
            ++ [(LogPassthrough.transform last chunk).2]
          = LogPassthrough.splitTerm (last.getD [] ++ chunk))
    ∧ (∀ (last : Option (List Char)) (chunk : List Char),
        (LogPassthrough.transform last chunk).1.flatten
            ++ (LogPassthrough.transform last chunk).2
          = (last.getD [] ++ chunk).filter
              (fun c => !LogPassthrough.isTerm c)) := by
  refine ⟨by decide, transform_segments, ?_⟩
  intro last chunk
  have h := transform_segments last chunk
  calc (LogPassthrough.transform last chunk).1.flatten
          ++ (LogPassthrough.transform last chunk).2
      = ((LogPassthrough.transform last chunk).1
          ++ [(LogPassthrough.transform last chunk).2]).flatten := by simp
    _ = (LogPassthrough.splitTerm (last.getD [] ++ chunk)).flatten := by rw [h]
    _ = (last.getD [] ++ chunk).filter (fun c => !LogPassthrough.isTerm c) :=
        LogPassthrough.splitTerm_join _

/-- Claim C5: finalizing the stream emits the carry buffer, together with
the decoder's pending partial multi-byte text, as exactly one final line
when that finalized buffer is non-empty, and emits nothing when it is
empty. -/
theorem c5_flush_emits_final_carry :
    ∀ (last : Option (List Char)) (pend : List Char),
      LogPassthrough.flushLines last pend
        = if last.getD [] ++ pend = [] then []
          else [last.getD [] ++ pend] := by
  intro last pend
  cases last with
  | none => simp [LogPassthrough.flushLines]
  | some s =>
    by_cases hs : s = [] <;> simp [LogPassthrough.flushLines, hs]

/-- Claim C6, counterexample: calling `destroy` on a runnable on which
`bootstrap` was never called reads `connected` off the null handle and
throws a `TypeError` instead of returning as a no-op. -/
theorem c6_counterexample :
    (Costa.destroy rNoHandleSample (Except.ok ())).1
      = Except.error (Costa.JsError.typeError
          "Cannot read property connected of null") := rfl

/-- Claim C6 (amended): for a runnable whose child was spawned but is
not connected, `destroy` is a no-op that returns without raising and
leaves the state, canceled flag and handle unchanged; but on a runnable
that never spawned a child (null handle) `destroy` throws a
`TypeError`. -/
theorem c6_amended_disconnected_noop :
    ∀ (r : Costa.RunnableSt) (h : Costa.Child)
      (o : Except Costa.JsError Unit),
      r.handle = some h → h.connected = false →
      Costa.destroy r o = (Except.ok (), r, []) := by
  intro r h o hh hc
  simp [Costa.destroy, hh, hc]

/-- Witness for the amended C6 on a disconnected child. -/
theorem c6_amended_witness :
    Costa.destroy rDisconnSample (Except.ok ())
      = (Except.ok (), rDisconnSample, []) :=
  c6_amended_disconnected_noop rDisconnSample { connected := false }
    (Except.ok ()) rfl rfl

/-- Claim C7: `Tracer.destroy(err)` always resolves: both streams'
`finish` promises resolve, and when no error listener is registered on
the stderr stream the error is logged as unhandled and the stream is
still destroyed (without delivering the error), so finalization
completes. -/
theorem c7_tracer_destroy_always_resolves :
    ∀ (t : Tracer.TracerSt) (e : Tracer.NodeError),
      ((Tracer.destroy t (some e)).1.resolved = true)
      ∧ ((Tracer.destroy t (some e)).2.resolved = true)
      ∧ (t.stderr.errListeners = 0 →
          (Tracer.destroy t (some e)).1.unhandledLogged = true
          ∧ (Tracer.destroy t (some e)).1.destroyErr = none) := by
  intro t e
  refine ⟨?_, rfl, ?_⟩
  · simp only [Tracer.destroy, Tracer.finish]
    split <;> rfl
  · intro h0
    constructor <;> simp [Tracer.destroy, Tracer.finish, h0]

/-- Witness for C7 on a tracer with no error listeners. -/
theorem c7_witness :
    ((Tracer.destroy tSample (some errSample)).1.resolved = true)
    ∧ ((Tracer.destroy tSample (some errSample)).2.resolved = true)
    ∧ ((Tracer.destroy tSample (some errSample)).1.unhandledLogged = true)
    ∧ ((Tracer.destroy tSample (some errSample)).1.destroyErr = none) := by
  have h := c7_tracer_destroy_always_resolves tSample errSample
  exact ⟨h.1, h.2.1, (h.2.2 rfl).1, (h.2.2 rfl).2⟩

/-- Claim C8: `TraceManager.destroy(id, err)` on an unregistered id is a
no-op that is logged and leaves the map unchanged (and, the method being
total, never raises); on a registered id it removes the tracer from the
map and calls that tracer's `destroy` with the given error. -/
theorem c8_registry_destroy :
    ∀ (m : List (String × Tracer.TracerSt)) (id : String)
      (err : Option Tracer.NodeError),
      (m.lookup id = none →
        TraceManager.destroy m id err
          = { tracerMap := m, destroyed := none, loggedNotFound := true })
      ∧ (∀ t, m.lookup id = some t →
          TraceManager.destroy m id err
            = { tracerMap := m.eraseP (fun kv => kv.1 == id),
                destroyed := some (t, err), loggedNotFound := false }) := by
  intro m id err
  constructor
  · intro h
    simp [TraceManager.destroy, h]
  · intro t h
    simp [TraceManager.destroy, h]

/-- Witness for C8 on a singleton registry holding the destroyed id. -/
theorem c8_witness :
    TraceManager.destroy [("t1", tSample)] "t1" none
      = { tracerMap := List.eraseP (fun kv => kv.1 == "t1") [("t1", tSample)],
          destroyed := some (tSample, none), loggedNotFound := false } :=
  (c8_registry_destroy [("t1", tSample)] "t1" none).2 tSample rfl

/-- Claim C9: the `listen` wiring turns every stdout line into an
info-level log event, every stderr line into a warn-level log event, and
an error on either underlying stream into an error-level log event
carrying the error's message. -/
theorem c9_listen_level_mapping :
    (∀ l, Tracer.listenEvent Tracer.StreamSrc.stdout
        (Tracer.StreamOccur.data l)
        = { level := Tracer.LogLevel.info, data := l })
    ∧ (∀ l, Tracer.listenEvent Tracer.StreamSrc.stderr
        (Tracer.StreamOccur.data l)
        = { level := Tracer.LogLevel.warn, data := l })
    ∧ (∀ src m, Tracer.listenEvent src (Tracer.StreamOccur.errored m)
        = { level := Tracer.LogLevel.error, data := m }) := by
  refine ⟨fun l => rfl, fun l => rfl, fun src m => ?_⟩
  cases src <;> rfl

/-- Claim C10: `Tracer.destroy(err)` forwards the error only to the
stderr stream's finalization: the stdout stream is finished with no
error (it never delivers the error and never logs it as unhandled),
while the stderr stream delivers it to its error listeners whenever at
least one is registered. -/
theorem c10_error_only_to_stderr :
    ∀ (t : Tracer.TracerSt) (e : Tracer.NodeError),
      (Tracer.destroy t (some e)).2.destroyErr = none
      ∧ (Tracer.destroy t (some e)).2.unhandledLogged = false
      ∧ (0 < t.stderr.errListeners →
          (Tracer.destroy t (some e)).1.destroyErr = some e) := by
  intro t e
  refine ⟨rfl, rfl, fun h => ?_⟩
  simp [Tracer.destroy, Tracer.finish, h]

/-- Witness for C10 on a tracer with one stderr error listener. -/
theorem c10_witness :
    (Tracer.destroy tListenSample (some errSample)).2.destroyErr = none
    ∧ (Tracer.destroy tListenSample (some errSample)).2.unhandledLogged
        = false
    ∧ (Tracer.destroy tListenSample (some errSample)).1.destroyErr
        = some errSample := by
  have h := c10_error_only_to_stderr tListenSample errSample
  exact ⟨h.1, h.2.1, h.2.2 (by decide)⟩
